import Mathlib

/-
  Verification of the ingest/validation core of the Trading Ops PnL
  Reconciliation repository (src/01_ingest: schemas.py, data_validation.py,
  loaders.py).

  Modelling conventions (shallow embedding):
  * A pandas cell is a `Cell`: a missing/unparsable marker `na` (NaN/NaT/None),
    a string, a rational number (decimals), a timezone-aware instant `dt`, or a
    calendar date `date`.  Instants and dates are represented by integer keys
    that are order-isomorphic to the real calendar values
    (key = ((y*100+m)*100+d)*1000000 + hh*10000 + mm*100 + ss), which is all
    the validators and sorters observe.
  * A DataFrame is a column-name list plus a list of rows (lists of cells).
  * The external tabular decoders (pandas read_csv / read_parquet) are modelled
    at their interface, per the spec's scope: a file system is a list of
    (path, decoded table) pairs.
  * Parsing raw values (pandas to_numeric / to_datetime with errors="coerce")
    is modelled by executable parsers over the decimal and ISO
    "YYYY-MM-DD[ HH:MM:SS]" grammars; inputs outside the modelled decoder
    interface (e.g. numeric epochs fed to to_datetime) coerce to the marker.
-/

inductive Cell where
  | na : Cell
  | str : String → Cell
  | num : ℚ → Cell
  | dt : ℤ → Cell
  | date : ℤ → Cell
deriving DecidableEq, Repr

/-- pandas `Series.isna` on one cell: true exactly on the NaN/NaT marker. -/
def Cell.isna : Cell → Bool
  | .na => true
  | _ => false

/-- pandas `astype(str)` on one cell: NaN renders as the string "nan". -/
def Cell.astypeStr : Cell → String
  | .na => "nan"
  | .str s => s
  | .num q => toString q
  | .dt t => toString t
  | .date d => toString d

def isWS (c : Char) : Bool := decide (c = ' ' ∨ c = '\t' ∨ c = '\n' ∨ c = '\r')

/-- Python `str.strip()` / pandas `.str.strip()`: drop leading and trailing
whitespace. -/
def strTrim (s : String) : String :=
  String.mk (((s.data.dropWhile isWS).reverse.dropWhile isWS).reverse)

/-- Python `str.lower()` on the ASCII headers and extensions it is applied to. -/
def strLower (s : String) : String := String.mk (s.data.map Char.toLower)

/-- Python `str.upper()` / pandas `.str.upper()`. -/
def strUpper (s : String) : String := String.mk (s.data.map Char.toUpper)

def digitVal (c : Char) : Option ℕ :=
  if 48 ≤ c.toNat ∧ c.toNat ≤ 57 then some (c.toNat - 48) else none

def parseNatDigits : List Char → ℕ → Option ℕ
  | [], acc => some acc
  | c :: rest, acc =>
    match digitVal c with
    | some d => parseNatDigits rest (acc * 10 + d)
    | none => none

/-- Decimal-literal parser standing for the numeric parser behind
pandas `to_numeric`: optional sign, digits, optional fractional part.  The
value sign*(ip + fp/10^len) is assembled with `Rat.divInt` over integer
arithmetic. -/
def parseDecimal (s : String) : Option ℚ :=
  let core : ℤ → List Char → Option ℚ := fun sign cs =>
    let ip := cs.takeWhile Char.isDigit
    let rest := cs.dropWhile Char.isDigit
    match rest with
    | [] =>
      if ip = [] then none
      else (parseNatDigits ip 0).map (fun n => Rat.divInt (sign * (n : ℤ)) 1)
    | '.' :: fp =>
      if fp.all Char.isDigit ∧ (ip ≠ [] ∨ fp ≠ []) then
        match parseNatDigits ip 0, parseNatDigits fp 0 with
        | some iv, some fv =>
          some (Rat.divInt (sign * ((iv : ℤ) * (10 : ℤ) ^ fp.length + (fv : ℤ)))
            ((10 : ℤ) ^ fp.length))
        | _, _ => none
      else none
    | _ => none
  match s.data with
  | '-' :: cs => core (-1) cs
  | '+' :: cs => core 1 cs
  | cs => core 1 cs

def parse2 (a b : Char) : Option ℕ :=
  match digitVal a, digitVal b with
  | some x, some y => some (x * 10 + y)
  | _, _ => none

def parse4 (a b c d : Char) : Option ℕ :=
  match parse2 a b, parse2 c d with
  | some x, some y => some (x * 100 + y)
  | _, _ => none

def dateKeyOf (y mo d : ℕ) : Option ℤ :=
  if 1 ≤ mo ∧ mo ≤ 12 ∧ 1 ≤ d ∧ d ≤ 31 then
    some (((y * 100 + mo) * 100 + d : ℕ) : ℤ)
  else none

def timeKeyOf (h mi s : ℕ) : Option ℤ :=
  if h ≤ 23 ∧ mi ≤ 59 ∧ s ≤ 59 then
    some ((h * 10000 + mi * 100 + s : ℕ) : ℤ)
  else none

/-- ISO "YYYY-MM-DD[ HH:MM:SS]" parser standing for the datetime parser
behind pandas `to_datetime`; the result is an order-isomorphic instant key. -/
def parseTimestampKey (s : String) : Option ℤ :=
  match s.data with
  | [y1, y2, y3, y4, '-', a1, a2, '-', b1, b2] =>
    match parse4 y1 y2 y3 y4, parse2 a1 a2, parse2 b1 b2 with
    | some y, some mo, some d => (dateKeyOf y mo d).map (fun k => k * 1000000)
    | _, _, _ => none
  | [y1, y2, y3, y4, '-', a1, a2, '-', b1, b2, sep, h1, h2, ':', m1, m2, ':', s1, s2] =>
    if sep = ' ' ∨ sep = 'T' then
      match parse4 y1 y2 y3 y4, parse2 a1 a2, parse2 b1 b2,
            parse2 h1 h2, parse2 m1 m2, parse2 s1 s2 with
      | some y, some mo, some d, some h, some mi, some sc =>
        match dateKeyOf y mo d, timeKeyOf h mi sc with
        | some dk, some tk => some (dk * 1000000 + tk)
        | _, _ => none
      | _, _, _, _, _, _ => none
    else none
  | _ => none

/-- pandas `to_numeric(x, errors="coerce")` on one cell: numbers pass through,
strings are parsed, anything unparsable becomes the NaN marker.  Datetime
cells are outside the modelled decoder interface and coerce to the marker. -/
def toNumericCell : Cell → Cell
  | .num q => .num q
  | .str s =>
    match parseDecimal (strTrim s) with
    | some q => .num q
    | none => .na
  | _ => .na

/-- pandas `to_datetime(x, errors="coerce", utc=True)` on one cell: instants
pass through, dates become midnight instants, strings are parsed; anything
unparsable becomes the NaT marker.  Numeric-epoch inputs are outside the
modelled decoder interface and coerce to the marker. -/
def toDatetimeCell : Cell → Cell
  | .dt t => .dt t
  | .date d => .dt (d * 1000000)
  | .str s =>
    match parseTimestampKey (strTrim s) with
    | some t => .dt t
    | none => .na
  | _ => .na

/-- pandas `to_datetime(x, errors="coerce").dt.date` on one cell: parse to an
instant and drop the time-of-day component. -/
def toDateCell (c : Cell) : Cell :=
  match toDatetimeCell c with
  | .dt t => .date (t / 1000000)
  | _ => .na

/-- The instant/date key a cell sorts by (timestamp and date columns hold
only `dt`/`date` cells once validated). -/
def Cell.sortKey : Cell → ℤ
  | .dt t => t
  | .date d => d
  | _ => 0

structure DataFrame where
  cols : List String
  rows : List (List Cell)
deriving DecidableEq, Repr

/-- Index of a column name in a header list (first occurrence). -/
def colIdx : List String → String → Option ℕ
  | [], _ => none
  | c :: cs, d => if c = d then some 0 else (colIdx cs d).map (fun i => i + 1)

/-- Column extraction `df[c]`; `[]` when the column is absent (call sites
guard presence via the required-column checks). -/
def DataFrame.col (df : DataFrame) (c : String) : List Cell :=
  match colIdx df.cols c with
  | some i => df.rows.map (fun r => r.getD i .na)
  | none => []

/-- Elementwise transform of the cell at an optional index of a row. -/
def setAt (r : List Cell) (i : Option ℕ) (f : Cell → Cell) : List Cell :=
  match i with
  | some i => r.set i (f (r.getD i Cell.na))
  | none => r

/-- Column assignment `df[c] = df[c].map(f)` — every column assignment in the
source is an elementwise transform of the column onto itself.  Absent columns
leave the frame unchanged (call sites guard presence). -/
def DataFrame.mapCol (df : DataFrame) (c : String) (f : Cell → Cell) : DataFrame :=
  ⟨df.cols, df.rows.map (fun r => setAt r (colIdx df.cols c) f)⟩

/-- Column projection `df.loc[:, cols]` in the given order. -/
def DataFrame.project (df : DataFrame) (cs : List String) : DataFrame :=
  ⟨cs, df.rows.map (fun r =>
    cs.map (fun c =>
      match colIdx df.cols c with
      | some i => r.getD i .na
      | none => .na))⟩

/-- Rectangularity: every row has one cell per column (what any tabular
decoder produces). -/
def DataFrame.Rect (df : DataFrame) : Prop :=
  ∀ r ∈ df.rows, r.length = df.cols.length

/-
  schemas.py — embedded as the attribute table each frozen dataclass
  instance actually exposes: a single class attribute `optional_cols`.
-/

def FillsSchema_attrs : List (String × List String) :=
  [("optional_cols", ["trade_id", "timestamp", "symbol", "side", "qty", "price"])]

def PricesSchema_attrs : List (String × List String) :=
  [("optional_cols", ["date", "symbol", "close", "timestamp", "mid", "bid", "ask"])]

def FeesSchema_attrs : List (String × List String) :=
  [("optional_cols",
    ["trade_id", "exchange_fees", "broker_commissions", "liquidity_rebates", "routing_fees"])]

/-- Python attribute lookup on a schema instance: `some` when the instance
exposes the attribute, `none` when access would raise AttributeError. -/
def schemaAttr (attrs : List (String × List String)) (a : String) : Option (List String) :=
  match attrs with
  | [] => none
  | (n, v) :: rest => if n = a then some v else schemaAttr rest a

/-- Modelled from the spec: the `required_cols` attribute consulted by
data_validation.py and loaders.py is missing from schemas.py (which defines
only `optional_cols`).  Required fill columns per spec section 3 (Fill). -/
def FILLS_required_cols : List String :=
  ["trade_id", "timestamp", "symbol", "side", "qty", "price"]

/-- Modelled from the spec: required price-mark columns per spec section 3
(PriceMark — `timestamp` is optional and carried through, not required). -/
def PRICES_required_cols : List String :=
  ["date", "symbol", "close"]

/-- Modelled from the spec: required fee columns per spec section 3
(FeeRecord), in the `fees`/`rebates` vocabulary the validator enforces. -/
def FEES_required_cols : List String :=
  ["trade_id", "fees", "rebates"]

/-
  data_validation.py
-/

inductive PyError where
  | dataValidation : String → PyError
  | fileNotFound : String → PyError
  | valueError : String → PyError
deriving DecidableEq, Repr

deriving instance DecidableEq for Except

def fmtStrList (l : List String) : String :=
  "[" ++ String.intercalate ", " l ++ "]"

def fmtCellList (l : List Cell) : String :=
  "[" ++ String.intercalate ", " (l.map Cell.astypeStr) ++ "]"

/-- data_validation.require_columns. -/
def require_columns (df : DataFrame) (required : List String) (name : String) :
    Except PyError Unit :=
  let missing := required.filter (fun c => decide (c ∉ df.cols))
  if missing ≠ [] then
    .error (.dataValidation (name ++ ": missing required columns: " ++ fmtStrList missing))
  else
    .ok ()

/-- The two local variables in scope inside a normalize function: the input
frame `df` and the working copy `out`. -/
structure NormEnv where
  df : DataFrame
  out : DataFrame
deriving DecidableEq, Repr

def stripCell (c : Cell) : Cell := .str (strTrim c.astypeStr)

def stripUpperCell (c : Cell) : Cell := .str (strUpper (strTrim c.astypeStr))

/-- data_validation.normalize_fills, statement by statement, tracking both
local variables (`out = df.copy()`, then five column assignments on `out`). -/
def normalize_fills_run (df0 : DataFrame) : Except PyError NormEnv :=
  match require_columns df0 FILLS_required_cols "fills" with
  | .error e => .error e
  | .ok _ =>
    let e : NormEnv := ⟨df0, df0⟩
    let e : NormEnv := ⟨e.df, e.out.mapCol "trade_id" stripCell⟩
    let e : NormEnv := ⟨e.df, e.out.mapCol "symbol" stripUpperCell⟩
    let e : NormEnv := ⟨e.df, e.out.mapCol "side" stripUpperCell⟩
    let e : NormEnv := ⟨e.df, e.out.mapCol "qty" toNumericCell⟩
    let e : NormEnv := ⟨e.df, e.out.mapCol "price" toNumericCell⟩
    let e : NormEnv := ⟨e.df, e.out.mapCol "timestamp" toDatetimeCell⟩
    .ok e

def normalize_fills (df : DataFrame) : Except PyError DataFrame :=
  (normalize_fills_run df).map NormEnv.out

/-- `series[series.duplicated()]`: occurrences strictly after the first. -/
def dupMarks : List Cell → List Cell → List Cell
  | _, [] => []
  | seen, c :: rest =>
    if c ∈ seen then c :: dupMarks seen rest else dupMarks (c :: seen) rest

def uniqFirstAux : List Cell → List Cell → List Cell
  | _, [] => []
  | seen, c :: rest =>
    if c ∈ seen then uniqFirstAux seen rest else c :: uniqFirstAux (c :: seen) rest

/-- `.unique()`: deduplicate keeping first occurrences. -/
def uniqFirst (l : List Cell) : List Cell := uniqFirstAux [] l

/-- `tid[tid.duplicated()].unique()`: every value occurring at least twice. -/
def dupValues (l : List Cell) : List Cell := uniqFirst (dupMarks [] l)

def sideOK (c : Cell) : Bool := decide (c = .str "B" ∨ c = .str "S")

/-- `df.loc[~mask, "side"].unique()`. -/
def badSides (l : List Cell) : List Cell := uniqFirst (l.filter (fun c => !sideOK c))

def numLeZero : Cell → Bool
  | .num q => decide (q ≤ 0)
  | _ => false

def numGtZero : Cell → Bool
  | .num q => decide (0 < q)
  | _ => false

def numLtZero : Cell → Bool
  | .num q => decide (q < 0)
  | _ => false

def emptyStrCell (c : Cell) : Bool := decide (c.astypeStr.length = 0)

/-- data_validation.validate_fills: checks in source order — required
columns, trade_id non-empty, trade_id unique, timestamp parseable, side
enumeration, qty sign, price sign. -/
def validate_fills (df : DataFrame) : Except PyError Unit :=
  match require_columns df FILLS_required_cols "fills" with
  | .error e => .error e
  | .ok _ =>
    let tid := df.col "trade_id"
    if tid.any Cell.isna || tid.any emptyStrCell then
      .error (.dataValidation "fills: trade_id has empty/NaN values")
    else
      let dups := dupValues tid
      if 0 < dups.length then
        .error (.dataValidation ("fills: duplicate trade_ids: " ++ fmtCellList dups))
      else if (df.col "timestamp").any Cell.isna then
        .error (.dataValidation "fills: timestamp has unparsable values")
      else if !(df.col "side").all sideOK then
        .error (.dataValidation
          ("fills: wrong or missing side values: " ++ fmtCellList (badSides (df.col "side"))))
      else if (df.col "qty").any Cell.isna || (df.col "qty").any numLeZero then
        .error (.dataValidation "fills: qty must be numeric and > 0")
      else if (df.col "price").any Cell.isna || (df.col "price").any numLeZero then
        .error (.dataValidation "fills: price must be numeric and > 0")
      else
        .ok ()

/-- data_validation.normalize_prices, statement by statement (the
`timestamp` assignment is guarded by column presence in the source; `mapCol`
on an absent column is the identity, matching that guard). -/
def normalize_prices_run (df0 : DataFrame) : Except PyError NormEnv :=
  match require_columns df0 PRICES_required_cols "prices" with
  | .error e => .error e
  | .ok _ =>
    let e : NormEnv := ⟨df0, df0⟩
    let e : NormEnv := ⟨e.df, e.out.mapCol "symbol" stripUpperCell⟩
    let e : NormEnv := ⟨e.df, e.out.mapCol "date" toDateCell⟩
    let e : NormEnv := ⟨e.df, e.out.mapCol "close" toNumericCell⟩
    let e : NormEnv := ⟨e.df, e.out.mapCol "timestamp" toDatetimeCell⟩
    .ok e

def normalize_prices (df : DataFrame) : Except PyError DataFrame :=
  (normalize_prices_run df).map NormEnv.out

/-- data_validation.validate_prices: checks in source order — required
columns, date parseable, symbol non-empty, close sign, (date, symbol)
uniqueness (`df.duplicated(subset=["date","symbol"]).any()`). -/
def validate_prices (df : DataFrame) : Except PyError Unit :=
  match require_columns df PRICES_required_cols "prices" with
  | .error e => .error e
  | .ok _ =>
    if (df.col "date").any Cell.isna then
      .error (.dataValidation "prices: date has unparsable values")
    else if (df.col "symbol").any Cell.isna || (df.col "symbol").any emptyStrCell then
      .error (.dataValidation "prices: symbol has empty/NaN values")
    else if (df.col "close").any Cell.isna || (df.col "close").any numLeZero then
      .error (.dataValidation "prices: close must be numeric and > 0")
    else if ¬ ((df.col "date").zip (df.col "symbol")).Nodup then
      .error (.dataValidation "prices: duplicate rows for (date, symbol)")
    else
      .ok ()

/-- data_validation.validate_fees: checks in source order — required
columns, trade_id non-empty, fees parseable and non-positive, rebates
parseable and non-negative. -/
def validate_fees (df : DataFrame) : Except PyError Unit :=
  match require_columns df FEES_required_cols "fees" with
  | .error e => .error e
  | .ok _ =>
    if (df.col "trade_id").any Cell.isna || (df.col "trade_id").any emptyStrCell then
      .error (.dataValidation "fees: trade_id has empty/NaN values")
    else
      let fees := (df.col "fees").map toNumericCell
      if fees.any Cell.isna || fees.any numGtZero then
        .error (.dataValidation "fees: fees contain NaNs or are the wrong sign")
      else
        let rebates := (df.col "rebates").map toNumericCell
        if rebates.any Cell.isna || rebates.any numLtZero then
          .error (.dataValidation "fees: rebates contain NaNs or are the wrong sign")
        else
          .ok ()

/-
  loaders.py
-/

/-- pathlib `Path.suffix`: the extension of the final path component, from
its last dot, empty when the dot is leading, trailing or absent. -/
def pathSuffix (p : String) : String :=
  let name := (p.data.reverse.takeWhile (fun c => decide (c ≠ '/'))).reverse
  let t := name.reverse.takeWhile (fun c => decide (c ≠ '.'))
  if t.length = name.length then ""
  else if 0 < name.length - t.length - 1 ∧ t.length ≠ 0 then
    String.mk ('.' :: t.reverse)
  else ""

/-- The modelled file system: each existing path with the table the
delegated decoder produces for it (spec section 1: format parsing is an
external collaborator, specified only at its interface). -/
def findFile : List (String × DataFrame) → String → Option DataFrame
  | [], _ => none
  | (q, d) :: rest, p => if q = p then some d else findFile rest p

/-- loaders.read_any: existence check first, then case-insensitive
extension dispatch to the delegated decoders. -/
def read_any (fs : List (String × DataFrame)) (p : String) : Except PyError DataFrame :=
  match findFile fs p with
  | none => .error (.fileNotFound ("File not found: " ++ p))
  | some content =>
    let suf := strLower (pathSuffix p)
    if suf = ".csv" then .ok content
    else if suf = ".parquet" then .ok content
    else .error (.valueError ("Unsupported document type: " ++ suf))

/-- `Series.dt.tz_convert(tz)` re-expresses the display zone of an already
UTC-aware instant; the underlying instant — the only thing the model
stores — is unchanged. -/
def tzConvertCell (_tz : String) (c : Cell) : Cell := c

def insertSorted (le : List Cell → List Cell → Bool) (r : List Cell) :
    List (List Cell) → List (List Cell)
  | [] => [r]
  | s :: rest => if le r s then r :: s :: rest else s :: insertSorted le r rest

/-- `sort_values`: pandas guarantees (and the spec claims) only the
resulting order, which any comparison sort realizes; modelled as an
insertion sort on the row comparator. -/
def sortRows (le : List Cell → List Cell → Bool) : List (List Cell) → List (List Cell)
  | [] => []
  | r :: rest => insertSorted le r (sortRows le rest)

def rowKeyLe (i : ℕ) (r1 r2 : List Cell) : Bool :=
  decide ((r1.getD i Cell.na).sortKey ≤ (r2.getD i Cell.na).sortKey)

def DataFrame.sortValuesKey (df : DataFrame) (c : String) : DataFrame :=
  match colIdx df.cols c with
  | some i => ⟨df.cols, sortRows (rowKeyLe i) df.rows⟩
  | none => df

/-- Lexicographic comparison of strings by character code. -/
def charListLe : List Char → List Char → Bool
  | [], _ => true
  | _ :: _, [] => false
  | a :: as, b :: bs =>
    if a.toNat < b.toNat then true
    else if b.toNat < a.toNat then false
    else charListLe as bs

def symLe (c1 c2 : Cell) : Bool := charListLe c1.astypeStr.data c2.astypeStr.data

/-- Row comparator for `sort_values(["date","symbol"])`: date key first,
then symbol, lexicographically. -/
def pricesRowLe (i j : ℕ) (r1 r2 : List Cell) : Bool :=
  let d1 := (r1.getD i Cell.na).sortKey
  let d2 := (r2.getD i Cell.na).sortKey
  if d1 < d2 then true
  else if d2 < d1 then false
  else symLe (r1.getD j Cell.na) (r2.getD j Cell.na)

def DataFrame.sortValues2 (df : DataFrame) (c1 c2 : String) : DataFrame :=
  match colIdx df.cols c1, colIdx df.cols c2 with
  | some i, some j => ⟨df.cols, sortRows (pricesRowLe i j) df.rows⟩
  | _, _ => df

/-- loaders.load_fills: decode, normalize, optional timezone re-expression,
validate, project onto the canonical columns, sort by timestamp. -/
def load_fills (fs : List (String × DataFrame)) (p : String) (tz : Option String) :
    Except PyError DataFrame :=
  match read_any fs p with
  | .error e => .error e
  | .ok df0 =>
    match normalize_fills df0 with
    | .error e => .error e
    | .ok df1 =>
      let df2 := match tz with
        | some z => df1.mapCol "timestamp" (tzConvertCell z)
        | none => df1
      match validate_fills df2 with
      | .error e => .error e
      | .ok _ => .ok ((df2.project FILLS_required_cols).sortValuesKey "timestamp")

/-- loaders.load_prices: decode, normalize, optional timezone re-expression
when a timestamp column exists, validate, project, sort by (date, symbol). -/
def load_prices (fs : List (String × DataFrame)) (p : String) (tz : Option String) :
    Except PyError DataFrame :=
  match read_any fs p with
  | .error e => .error e
  | .ok df0 =>
    match normalize_prices df0 with
    | .error e => .error e
    | .ok df1 =>
      let df2 :=
        if "timestamp" ∈ df1.cols then
          match tz with
          | some z => df1.mapCol "timestamp" (tzConvertCell z)
          | none => df1
        else df1
      match validate_prices df2 with
      | .error e => .error e
      | .ok _ => .ok ((df2.project PRICES_required_cols).sortValues2 "date" "symbol")

/-- Header normalization in loaders.load_fees:
`[str(c).strip().lower() for c in df.columns]`. -/
def hdrNorm (c : String) : String := strLower (strTrim c)

/-- loaders.load_fees: decode, lowercase/trim the headers, check required
columns, light normalization of the three fee fields, validate, project; no
sort, the row order of the decoded file passes through. -/
def load_fees (fs : List (String × DataFrame)) (p : String) : Except PyError DataFrame :=
  match read_any fs p with
  | .error e => .error e
  | .ok df0 =>
    let df1 : DataFrame := ⟨df0.cols.map hdrNorm, df0.rows⟩
    let missing := FEES_required_cols.filter (fun c => decide (c ∉ df1.cols))
    if missing ≠ [] then
      .error (.dataValidation ("fees: missing required columns: " ++ fmtStrList missing))
    else
      let df2 := df1.mapCol "trade_id" stripCell
      let df3 := df2.mapCol "fees" toNumericCell
      let df4 := df3.mapCol "rebates" toNumericCell
      match validate_fees df4 with
      | .error e => .error e
      | .ok _ => .ok (df4.project FEES_required_cols)

/-- The per-row effect of load_fees between decode and return: the three
field transforms followed by the canonical projection, all computed against
the normalized header of the decoded table. -/
def feesRowFn (cols0 : List String) (r : List Cell) : List Cell :=
  let cols1 := cols0.map hdrNorm
  let r1 := setAt r (colIdx cols1 "trade_id") stripCell
  let r2 := setAt r1 (colIdx cols1 "fees") toNumericCell
  let r3 := setAt r2 (colIdx cols1 "rebates") toNumericCell
  FEES_required_cols.map (fun c =>
    match colIdx cols1 c with
    | some i => r3.getD i Cell.na
    | none => Cell.na)

def prefixOfb : List Char → List Char → Bool
  | [], _ => true
  | _ :: _, [] => false
  | a :: as, b :: bs => a = b && prefixOfb as bs

/-- Whether `sub` occurs as a contiguous substring of `s`. -/
def strContains (s sub : String) : Bool :=
  (List.range (s.data.length + 1)).any (fun i => prefixOfb sub.data (s.data.drop i))

def countCell (v : Cell) : List Cell → ℕ
  | [] => 0
  | c :: rest => (if c = v then 1 else 0) + countCell v rest

/-
  Helper lemmas about the embedding.
-/

theorem mem_dupMarks (v : Cell) :
    ∀ (l seen : List Cell),
      v ∈ dupMarks seen l ↔ (if v ∈ seen then 1 else 2) ≤ countCell v l := by
  intro l
  induction l with
  | nil =>
    intro seen
    by_cases h : v ∈ seen <;> simp [dupMarks, countCell, h]
  | cons c rest ih =>
    intro seen
    by_cases hc : c ∈ seen
    · by_cases hv : c = v
      · subst hv
        simp only [dupMarks, hc, if_true, List.mem_cons, true_or, countCell, ih,
          if_pos rfl, true_iff]
        omega
      · simp [dupMarks, hc, countCell, hv, ih, Ne.symm hv]
    · by_cases hv : c = v
      · subst hv
        have := ih (c :: seen)
        simp [dupMarks, hc, countCell, this]
        omega
      · have := ih (c :: seen)
        simp [dupMarks, hc, countCell, hv, this, Ne.symm hv]

theorem mem_uniqFirstAux (v : Cell) :
    ∀ (l seen : List Cell), v ∈ uniqFirstAux seen l ↔ v ∈ l ∧ v ∉ seen := by
  intro l
  induction l with
  | nil => intro seen; simp [uniqFirstAux]
  | cons c rest ih =>
    intro seen
    by_cases hc : c ∈ seen <;> by_cases hv : v = c
    · subst hv; simp [uniqFirstAux, hc, ih]
    · simp [uniqFirstAux, hc, ih, hv]
    · subst hv; simp [uniqFirstAux, hc, ih]
    · simp [uniqFirstAux, hc, ih, hv]

theorem mem_uniqFirst (v : Cell) (l : List Cell) : v ∈ uniqFirst l ↔ v ∈ l := by
  rw [uniqFirst, mem_uniqFirstAux]
  simp

/-- Every value occurring at least twice in the column is enumerated by
`dupValues`, and nothing else is. -/
theorem mem_dupValues (v : Cell) (l : List Cell) :
    v ∈ dupValues l ↔ 2 ≤ countCell v l := by
  rw [dupValues, mem_uniqFirst, mem_dupMarks]
  simp

theorem uniqFirst_eq_nil_iff (l : List Cell) : uniqFirst l = [] ↔ l = [] := by
  cases l with
  | nil => simp [uniqFirst, uniqFirstAux]
  | cons c rest => simp [uniqFirst, uniqFirstAux]

/-- Every invalid side value in the column is enumerated by `badSides`, and
nothing else is. -/
theorem mem_badSides (v : Cell) (l : List Cell) :
    v ∈ badSides l ↔ v ∈ l ∧ sideOK v = false := by
  rw [badSides, mem_uniqFirst, List.mem_filter]
  simp

theorem mem_insertSorted (le : List Cell → List Cell → Bool) (r x : List Cell) :
    ∀ l, x ∈ insertSorted le r l ↔ x = r ∨ x ∈ l := by
  intro l
  induction l with
  | nil => simp [insertSorted]
  | cons s rest ih =>
    by_cases h : le r s = true
    · simp [insertSorted, h]
    · simp [insertSorted, h, ih]
      tauto

theorem pairwise_insertSorted (le : List Cell → List Cell → Bool)
    (htrans : ∀ a b c, le a b = true → le b c = true → le a c = true)
    (htotal : ∀ a b, le a b = true ∨ le b a = true) (r : List Cell) :
    ∀ l, l.Pairwise (fun a b => le a b = true) →
      (insertSorted le r l).Pairwise (fun a b => le a b = true) := by
  intro l
  induction l with
  | nil => intro _; simp [insertSorted]
  | cons s rest ih =>
    intro hp
    rw [List.pairwise_cons] at hp
    obtain ⟨hs, hrest⟩ := hp
    by_cases h : le r s = true
    · simp only [insertSorted, h, if_true]
      refine List.Pairwise.cons ?_ (List.Pairwise.cons hs hrest)
      intro b hb
      rcases List.mem_cons.mp hb with rfl | hb
      · exact h
      · exact htrans r s b h (hs b hb)
    · simp only [insertSorted, h, if_false]
      refine List.Pairwise.cons ?_ (ih hrest)
      intro b hb
      rw [mem_insertSorted] at hb
      rcases hb with rfl | hb
      · rcases htotal b s with h1 | h1
        · exact absurd h1 h
        · exact h1
      · exact hs b hb

theorem pairwise_sortRows (le : List Cell → List Cell → Bool)
    (htrans : ∀ a b c, le a b = true → le b c = true → le a c = true)
    (htotal : ∀ a b, le a b = true ∨ le b a = true) :
    ∀ l, (sortRows le l).Pairwise (fun a b => le a b = true) := by
  intro l
  induction l with
  | nil => simp [sortRows]
  | cons r rest ih =>
    simp only [sortRows]
    exact pairwise_insertSorted le htrans htotal r _ ih

theorem require_columns_ok (df : DataFrame) (required : List String) (name : String)
    (h : ∀ c ∈ required, c ∈ df.cols) :
    require_columns df required name = .ok () := by
  have hnil : required.filter (fun c => decide (c ∉ df.cols)) = [] := by
    rw [List.filter_eq_nil_iff]
    intro a ha
    simp [h a ha]
  unfold require_columns
  simp only [hnil, ne_eq, not_true_eq_false, if_false]

theorem col_of_rows_nil (df : DataFrame) (c : String) (h : df.rows = []) :
    df.col c = [] := by
  unfold DataFrame.col
  cases colIdx df.cols c <;> simp [h]

theorem colIdx_getElem :
    ∀ (cols : List String) (c : String) (i : ℕ),
      colIdx cols c = some i → cols[i]? = some c := by
  intro cols
  induction cols with
  | nil => intro c i h; simp [colIdx] at h
  | cons d rest ih =>
    intro c i h
    by_cases hd : d = c
    · subst hd
      simp [colIdx] at h
      subst h
      simp
    · rw [colIdx] at h
      simp only [hd, if_false, Option.map_eq_some'] at h
      obtain ⟨j, hj, rfl⟩ := h
      simpa using ih c j hj

theorem colIdx_lt_length (cols : List String) (c : String) (i : ℕ)
    (h : colIdx cols c = some i) : i < cols.length := by
  have := colIdx_getElem cols c i h
  exact (List.getElem?_eq_some.mp this).1

theorem colIdx_mem (cols : List String) (c : String) (h : c ∈ cols) :
    ∃ i, colIdx cols c = some i := by
  induction cols with
  | nil => simp at h
  | cons d rest ih =>
    by_cases hd : d = c
    · exact ⟨0, by simp [colIdx, hd]⟩
    · obtain ⟨i, hi⟩ := ih (by
        rcases List.mem_cons.mp h with h1 | h1
        · exact absurd h1.symm hd
        · exact h1)
      exact ⟨i + 1, by simp [colIdx, hd, hi]⟩

theorem cols_mapCol (df : DataFrame) (c : String) (f : Cell → Cell) :
    (df.mapCol c f).cols = df.cols := rfl

theorem rect_mapCol (df : DataFrame) (c : String) (f : Cell → Cell)
    (h : df.Rect) : (df.mapCol c f).Rect := by
  intro r hr
  simp only [DataFrame.mapCol, List.mem_map] at hr
  obtain ⟨r0, h0, rfl⟩ := hr
  cases hidx : colIdx df.cols c <;>
    simp [DataFrame.mapCol, setAt, List.length_set, h r0 h0]

theorem col_mapCol_same (df : DataFrame) (c : String) (f : Cell → Cell)
    (hrect : df.Rect) (hmem : c ∈ df.cols) :
    (df.mapCol c f).col c = (df.col c).map f := by
  obtain ⟨i, hi⟩ := colIdx_mem df.cols c hmem
  have hlt : i < df.cols.length := colIdx_lt_length df.cols c i hi
  simp only [DataFrame.col, DataFrame.mapCol, hi, List.map_map]
  apply List.map_congr_left
  intro r hr
  have hrl : i < r.length := by rw [hrect r hr]; exact hlt
  simp [setAt, hi, List.getD_eq_getElem?_getD, List.getElem?_set_eq hrl]

theorem col_mapCol_ne (df : DataFrame) (c d : String) (f : Cell → Cell)
    (hne : c ≠ d) : (df.mapCol d f).col c = df.col c := by
  simp only [DataFrame.col, DataFrame.mapCol]
  cases hc : colIdx df.cols c with
  | none => simp
  | some i =>
    cases hd : colIdx df.cols d with
    | none => simp [setAt]
    | some j =>
      have hij : j ≠ i := by
        intro h
        subst h
        have h1 := colIdx_getElem df.cols c j hc
        have h2 := colIdx_getElem df.cols d j hd
        rw [h1] at h2
        exact hne (Option.some_injective _ h2)
      simp only [List.map_map]
      apply List.map_congr_left
      intro r hr
      simp [setAt, hd, Function.comp, List.getD_eq_getElem?_getD,
        List.getElem?_set_ne hij]

theorem require_columns_err (df : DataFrame) (required : List String) (name : String)
    (h : required.filter (fun c => decide (c ∉ df.cols)) ≠ []) :
    require_columns df required name = .error (.dataValidation
      (name ++ ": missing required columns: " ++
        fmtStrList (required.filter (fun c => decide (c ∉ df.cols))))) := by
  unfold require_columns
  simp only [ne_eq, h, not_false_eq_true, if_true]

/-
  Claims.
-/

/-- C1: the claim says FILLS, PRICES and FEES expose a `required_cols`
attribute.  Evaluating the embedded schema objects shows none of them
exposes `required_cols` — each exposes only `optional_cols` — so every
attribute access `FILLS.required_cols` etc. in data_validation.py and
loaders.py raises AttributeError. -/
theorem schemas_expose_no_required_cols :
    schemaAttr FillsSchema_attrs "required_cols" = none ∧
    schemaAttr PricesSchema_attrs "required_cols" = none ∧
    schemaAttr FeesSchema_attrs "required_cols" = none ∧
    schemaAttr FillsSchema_attrs "optional_cols" =
      some ["trade_id", "timestamp", "symbol", "side", "qty", "price"] ∧
    schemaAttr PricesSchema_attrs "optional_cols" =
      some ["date", "symbol", "close", "timestamp", "mid", "bid", "ask"] ∧
    schemaAttr FeesSchema_attrs "optional_cols" =
      some ["trade_id", "exchange_fees", "broker_commissions",
            "liquidity_rebates", "routing_fees"] := by
  decide

/-- C4: read_any fails with the distinct file-not-found error on every
nonexistent path, before any extension handling; on an existing path it
dispatches on the lowercased extension, returning the decoded table for
.csv/.parquet and the unsupported-document-type error naming the extension
otherwise. -/
theorem read_any_dispatch (fs : List (String × DataFrame)) (p : String) :
    (findFile fs p = none →
      read_any fs p = .error (.fileNotFound ("File not found: " ++ p))) ∧
    (∀ df, findFile fs p = some df →
      ((strLower (pathSuffix p) = ".csv" ∨ strLower (pathSuffix p) = ".parquet") →
        read_any fs p = .ok df) ∧
      (strLower (pathSuffix p) ≠ ".csv" → strLower (pathSuffix p) ≠ ".parquet" →
        read_any fs p =
          .error (.valueError ("Unsupported document type: " ++ strLower (pathSuffix p))))) := by
  refine ⟨fun h => by simp [read_any, h], fun df h => ⟨fun hs => ?_, fun h1 h2 => ?_⟩⟩
  · rcases hs with hs | hs <;> simp [read_any, h, hs]
  · simp [read_any, h, h1, h2]

theorem read_any_dispatch_witness :
    read_any [] "missing.csv" =
      .error (.fileNotFound ("File not found: " ++ "missing.csv")) ∧
    read_any [("d.TXT", ⟨[], []⟩)] "d.TXT" =
      .error (.valueError ("Unsupported document type: " ++ strLower (pathSuffix "d.TXT"))) ∧
    read_any [("d.CSV", ⟨["a"], []⟩)] "d.CSV" = .ok ⟨["a"], []⟩ := by
  refine ⟨(read_any_dispatch [] "missing.csv").1 rfl, ?_, ?_⟩
  · exact ((read_any_dispatch [("d.TXT", ⟨[], []⟩)] "d.TXT").2 _ rfl).2
      (by decide) (by decide)
  · exact ((read_any_dispatch [("d.CSV", ⟨["a"], []⟩)] "d.CSV").2 _ rfl).1
      (Or.inl (by decide))

/-- C2 counterexample: on a prices table whose single row has both an
unparsable date and an empty symbol, validate_prices raises the date error,
not the symbol error the claim predicts. -/
theorem validate_prices_order_cex :
    validate_prices ⟨["date", "symbol", "close"], [[Cell.na, Cell.str "", Cell.num 1]]⟩ =
      .error (.dataValidation "prices: date has unparsable values") ∧
    validate_prices ⟨["date", "symbol", "close"], [[Cell.na, Cell.str "", Cell.num 1]]⟩ ≠
      .error (.dataValidation "prices: symbol has empty/NaN values") := by
  decide

/-- C2 (amended): validate_prices checks date parseability before the
symbol check: whenever the required columns are present and some date cell
is unparsable, the date error is raised, whatever the symbol column holds. -/
theorem validate_prices_date_checked_first (df : DataFrame)
    (hcols : ∀ c ∈ PRICES_required_cols, c ∈ df.cols)
    (hdate : (df.col "date").any Cell.isna = true) :
    validate_prices df = .error (.dataValidation "prices: date has unparsable values") := by
  unfold validate_prices
  rw [require_columns_ok df _ _ hcols]
  simp [hdate]

theorem validate_prices_date_checked_first_witness :
    validate_prices ⟨["date", "symbol", "close"], [[Cell.na, Cell.str "", Cell.num 1]]⟩ =
      .error (.dataValidation "prices: date has unparsable values") :=
  validate_prices_date_checked_first
    ⟨["date", "symbol", "close"], [[Cell.na, Cell.str "", Cell.num 1]]⟩
    (by decide) (by decide)

/-- C3 counterexample: a prices batch with two distinct duplicated
(date, symbol) pairs fails with a fixed message that enumerates none of
them — neither symbol nor date of any offending pair occurs in the
message. -/
theorem validate_prices_dup_message_cex :
    validate_prices ⟨["date", "symbol", "close"],
      [[Cell.date 20240102, Cell.str "AAPL", Cell.num 1],
       [Cell.date 20240102, Cell.str "AAPL", Cell.num 2],
       [Cell.date 20240103, Cell.str "MSFT", Cell.num 3],
       [Cell.date 20240103, Cell.str "MSFT", Cell.num 4]]⟩ =
      .error (.dataValidation "prices: duplicate rows for (date, symbol)") ∧
    strContains "prices: duplicate rows for (date, symbol)" "AAPL" = false ∧
    strContains "prices: duplicate rows for (date, symbol)" "MSFT" = false ∧
    strContains "prices: duplicate rows for (date, symbol)" "20240102" = false := by
  decide

/-- C3 (amended): the fills duplicate-trade_id error and the fills bad-side
error interpolate the complete list of offending values (dupValues collects
exactly the values occurring at least twice, badSides exactly the invalid
side values); the prices duplicate-(date, symbol) error instead carries a
fixed message that names no pairs. -/
theorem multi_valued_violation_messages (df : DataFrame) :
    ((∀ c ∈ FILLS_required_cols, c ∈ df.cols) →
      (df.col "trade_id").any Cell.isna = false →
      (df.col "trade_id").any emptyStrCell = false →
      dupValues (df.col "trade_id") ≠ [] →
      validate_fills df = .error (.dataValidation
        ("fills: duplicate trade_ids: " ++ fmtCellList (dupValues (df.col "trade_id")))) ∧
      (∀ v, v ∈ dupValues (df.col "trade_id") ↔ 2 ≤ countCell v (df.col "trade_id"))) ∧
    ((∀ c ∈ FILLS_required_cols, c ∈ df.cols) →
      (df.col "trade_id").any Cell.isna = false →
      (df.col "trade_id").any emptyStrCell = false →
      dupValues (df.col "trade_id") = [] →
      (df.col "timestamp").any Cell.isna = false →
      badSides (df.col "side") ≠ [] →
      validate_fills df = .error (.dataValidation
        ("fills: wrong or missing side values: " ++ fmtCellList (badSides (df.col "side")))) ∧
      (∀ v, v ∈ badSides (df.col "side") ↔ v ∈ df.col "side" ∧ sideOK v = false)) ∧
    ((∀ c ∈ PRICES_required_cols, c ∈ df.cols) →
      (df.col "date").any Cell.isna = false →
      (df.col "symbol").any Cell.isna = false →
      (df.col "symbol").any emptyStrCell = false →
      (df.col "close").any Cell.isna = false →
      (df.col "close").any numLeZero = false →
      ¬ ((df.col "date").zip (df.col "symbol")).Nodup →
      validate_prices df =
        .error (.dataValidation "prices: duplicate rows for (date, symbol)")) := by
  refine ⟨?_, ?_, ?_⟩
  · intro hcols h1 h2 h3
    refine ⟨?_, fun v => mem_dupValues v _⟩
    unfold validate_fills
    rw [require_columns_ok df _ _ hcols]
    simp only [h1, h2, Bool.or_self, Bool.false_eq_true, if_false]
    rw [if_pos (List.length_pos.mpr h3)]
  · intro hcols h1 h2 h3 h4 h5
    refine ⟨?_, fun v => mem_badSides v _⟩
    have hall : (df.col "side").all sideOK = false := by
      rw [← Bool.not_eq_true, List.all_eq_true]
      intro hno
      apply h5
      unfold badSides
      rw [uniqFirst_eq_nil_iff, List.filter_eq_nil_iff]
      intro a ha
      simp [hno a ha]
    unfold validate_fills
    rw [require_columns_ok df _ _ hcols]
    simp only [h1, h2, h3, h4, hall, Bool.or_self, Bool.false_eq_true, if_false,
      List.length_nil, Nat.lt_irrefl, Bool.not_false, if_true]
  · intro hcols h1 h2 h3 h4 h5 h6
    unfold validate_prices
    rw [require_columns_ok df _ _ hcols]
    simp only [h1, h2, h3, h4, h5, Bool.or_self, Bool.false_eq_true, if_false]
    rw [if_pos h6]

theorem multi_valued_violation_messages_witness :
    validate_fills ⟨FILLS_required_cols,
      [[Cell.str "T1", Cell.dt 5, Cell.str "A", Cell.str "B", Cell.num 1, Cell.num 2],
       [Cell.str "T1", Cell.dt 6, Cell.str "A", Cell.str "S", Cell.num 1, Cell.num 2],
       [Cell.str "T2", Cell.dt 7, Cell.str "A", Cell.str "B", Cell.num 1, Cell.num 2],
       [Cell.str "T2", Cell.dt 8, Cell.str "A", Cell.str "S", Cell.num 1, Cell.num 2]]⟩ =
      .error (.dataValidation ("fills: duplicate trade_ids: " ++
        fmtCellList (dupValues (DataFrame.col ⟨FILLS_required_cols,
          [[Cell.str "T1", Cell.dt 5, Cell.str "A", Cell.str "B", Cell.num 1, Cell.num 2],
           [Cell.str "T1", Cell.dt 6, Cell.str "A", Cell.str "S", Cell.num 1, Cell.num 2],
           [Cell.str "T2", Cell.dt 7, Cell.str "A", Cell.str "B", Cell.num 1, Cell.num 2],
           [Cell.str "T2", Cell.dt 8, Cell.str "A", Cell.str "S", Cell.num 1, Cell.num 2]]⟩
          "trade_id")))) :=
  ((multi_valued_violation_messages ⟨FILLS_required_cols,
      [[Cell.str "T1", Cell.dt 5, Cell.str "A", Cell.str "B", Cell.num 1, Cell.num 2],
       [Cell.str "T1", Cell.dt 6, Cell.str "A", Cell.str "S", Cell.num 1, Cell.num 2],
       [Cell.str "T2", Cell.dt 7, Cell.str "A", Cell.str "B", Cell.num 1, Cell.num 2],
       [Cell.str "T2", Cell.dt 8, Cell.str "A", Cell.str "S", Cell.num 1, Cell.num 2]]⟩).1
    (by decide) (by decide) (by decide) (by decide)).1

theorem ite_error_ok {c : Prop} [Decidable c] {e : PyError} {x : Except PyError Unit} :
    (if c then Except.error e else x) = .ok () ↔ (¬ c ∧ x = .ok ()) := by
  by_cases h : c <;> simp [h]

theorem strLength_eq_zero_iff (s : String) : s.length = 0 ↔ s = "" := by
  constructor
  · intro h
    apply String.ext
    have hd : s.data.length = 0 := h
    simpa using List.length_eq_zero.mp hd
  · intro h
    rw [h]
    rfl

theorem toNumericCell_shape (c : Cell) :
    toNumericCell c = Cell.na ∨ ∃ q, toNumericCell c = Cell.num q := by
  cases c with
  | na => exact Or.inl rfl
  | str s =>
    cases h : parseDecimal (strTrim s) with
    | none => exact Or.inl (by simp [toNumericCell, h])
    | some q => exact Or.inr ⟨q, by simp [toNumericCell, h]⟩
  | num q => exact Or.inr ⟨q, rfl⟩
  | dt t => exact Or.inl rfl
  | date d => exact Or.inl rfl

/-- C5: with the required columns present, validate_fees succeeds exactly
when every trade_id cell is non-missing and non-empty, every fees cell is
parseable with value at most zero, and every rebates cell is parseable with
value at least zero. -/
theorem validate_fees_iff (df : DataFrame)
    (hcols : ∀ c ∈ FEES_required_cols, c ∈ df.cols) :
    validate_fees df = .ok () ↔
      ((∀ c ∈ df.col "trade_id", c.isna = false ∧ c.astypeStr ≠ "") ∧
       (∀ c ∈ df.col "fees", ∃ q, toNumericCell c = Cell.num q ∧ q ≤ 0) ∧
       (∀ c ∈ df.col "rebates", ∃ q, toNumericCell c = Cell.num q ∧ 0 ≤ q)) := by
  unfold validate_fees
  rw [require_columns_ok df _ _ hcols]
  simp only [ite_error_ok]
  constructor
  · rintro ⟨h1, h2, h3, -⟩
    refine ⟨?_, ?_, ?_⟩
    · intro c hc
      rw [Bool.or_eq_true, not_or] at h1
      obtain ⟨h1a, h1b⟩ := h1
      rw [Bool.not_eq_true, List.any_eq_false] at h1a h1b
      have := h1a c hc
      have hb := h1b c hc
      simp only [emptyStrCell, decide_eq_true_iff] at hb
      exact ⟨by simpa using this, fun hne => hb (by rw [hne]; rfl)⟩
    · intro c hc
      rw [Bool.or_eq_true, not_or] at h2
      obtain ⟨h2a, h2b⟩ := h2
      rw [Bool.not_eq_true, List.any_eq_false] at h2a h2b
      have ha := h2a (toNumericCell c) (List.mem_map_of_mem _ hc)
      have hb := h2b (toNumericCell c) (List.mem_map_of_mem _ hc)
      rcases toNumericCell_shape c with hsh | ⟨q, hsh⟩
      · rw [hsh] at ha
        exact absurd rfl ha
      · refine ⟨q, hsh, ?_⟩
        rw [hsh] at hb
        simp only [numGtZero, decide_eq_true_iff] at hb
        exact le_of_not_lt hb
    · intro c hc
      rw [Bool.or_eq_true, not_or] at h3
      obtain ⟨h3a, h3b⟩ := h3
      rw [Bool.not_eq_true, List.any_eq_false] at h3a h3b
      have ha := h3a (toNumericCell c) (List.mem_map_of_mem _ hc)
      have hb := h3b (toNumericCell c) (List.mem_map_of_mem _ hc)
      rcases toNumericCell_shape c with hsh | ⟨q, hsh⟩
      · rw [hsh] at ha
        exact absurd rfl ha
      · refine ⟨q, hsh, ?_⟩
        rw [hsh] at hb
        simp only [numLtZero, decide_eq_true_iff] at hb
        exact le_of_not_lt hb
  · rintro ⟨h1, h2, h3⟩
    refine ⟨?_, ?_, ?_, trivial⟩
    · rw [Bool.or_eq_true, not_or, Bool.not_eq_true, Bool.not_eq_true,
        List.any_eq_false, List.any_eq_false]
      constructor
      · intro c hc
        simp [(h1 c hc).1]
      · intro c hc
        simp only [emptyStrCell, decide_eq_true_iff]
        intro hlen
        exact (h1 c hc).2 (strLength_eq_zero_iff _ |>.mp hlen)
    · rw [Bool.or_eq_true, not_or, Bool.not_eq_true, Bool.not_eq_true,
        List.any_eq_false, List.any_eq_false]
      constructor
      · intro x hx
        obtain ⟨c, hc, rfl⟩ := List.mem_map.mp hx
        obtain ⟨q, hq, -⟩ := h2 c hc
        simp [hq, Cell.isna]
      · intro x hx
        obtain ⟨c, hc, rfl⟩ := List.mem_map.mp hx
        obtain ⟨q, hq, hle⟩ := h2 c hc
        simp [hq, numGtZero, not_lt, hle]
    · rw [Bool.or_eq_true, not_or, Bool.not_eq_true, Bool.not_eq_true,
        List.any_eq_false, List.any_eq_false]
      constructor
      · intro x hx
        obtain ⟨c, hc, rfl⟩ := List.mem_map.mp hx
        obtain ⟨q, hq, -⟩ := h3 c hc
        simp [hq, Cell.isna]
      · intro x hx
        obtain ⟨c, hc, rfl⟩ := List.mem_map.mp hx
        obtain ⟨q, hq, hle⟩ := h3 c hc
        simp [hq, numLtZero, not_lt, hle]

theorem validate_fees_iff_witness :
    validate_fees ⟨["trade_id", "fees", "rebates"],
      [[Cell.str "T1", Cell.num (-10), Cell.num 0]]⟩ = .ok () ∧
    validate_fees ⟨["trade_id", "fees", "rebates"],
      [[Cell.str "T1", Cell.num 10, Cell.num 0]]⟩ =
      .error (.dataValidation "fees: fees contain NaNs or are the wrong sign") ∧
    validate_fees ⟨["trade_id", "fees", "rebates"],
      [[Cell.str "T1", Cell.num (-10), Cell.num (-1)]]⟩ =
      .error (.dataValidation "fees: rebates contain NaNs or are the wrong sign") := by
  refine ⟨?_, by decide, by decide⟩
  refine (validate_fees_iff _ (by decide)).mpr ⟨?_, ?_, ?_⟩
  · intro c hc
    have : c = Cell.str "T1" := by
      have hcol : DataFrame.col ⟨["trade_id", "fees", "rebates"],
          [[Cell.str "T1", Cell.num (-10), Cell.num 0]]⟩ "trade_id" = [Cell.str "T1"] := rfl
      rw [hcol] at hc
      simpa using hc
    subst this
    exact ⟨rfl, by decide⟩
  · intro c hc
    have : c = Cell.num (-10) := by
      have hcol : DataFrame.col ⟨["trade_id", "fees", "rebates"],
          [[Cell.str "T1", Cell.num (-10), Cell.num 0]]⟩ "fees" = [Cell.num (-10)] := rfl
      rw [hcol] at hc
      simpa using hc
    subst this
    exact ⟨-10, rfl, by norm_num⟩
  · intro c hc
    have : c = Cell.num 0 := by
      have hcol : DataFrame.col ⟨["trade_id", "fees", "rebates"],
          [[Cell.str "T1", Cell.num (-10), Cell.num 0]]⟩ "rebates" = [Cell.num 0] := rfl
      rw [hcol] at hc
      simpa using hc
    subst this
    exact ⟨0, rfl, le_refl 0⟩

theorem validate_fills_empty (df : DataFrame) (hrows : df.rows = [])
    (hcols : ∀ c ∈ FILLS_required_cols, c ∈ df.cols) : validate_fills df = .ok () := by
  have hcol : ∀ c, df.col c = [] := fun c => col_of_rows_nil df c hrows
  unfold validate_fills
  rw [require_columns_ok df _ _ hcols]
  simp [hcol, dupValues, dupMarks, uniqFirst, uniqFirstAux]

theorem validate_prices_empty (df : DataFrame) (hrows : df.rows = [])
    (hcols : ∀ c ∈ PRICES_required_cols, c ∈ df.cols) : validate_prices df = .ok () := by
  have hcol : ∀ c, df.col c = [] := fun c => col_of_rows_nil df c hrows
  unfold validate_prices
  rw [require_columns_ok df _ _ hcols]
  simp [hcol]

theorem validate_fees_empty (df : DataFrame) (hrows : df.rows = [])
    (hcols : ∀ c ∈ FEES_required_cols, c ∈ df.cols) : validate_fees df = .ok () := by
  have hcol : ∀ c, df.col c = [] := fun c => col_of_rows_nil df c hrows
  unfold validate_fees
  rw [require_columns_ok df _ _ hcols]
  simp [hcol]

/-- C10: a zero-row table with the required columns passes all three
validators, and each loader returns the empty table on the canonical
columns instead of failing. -/
theorem empty_batches (df : DataFrame) (hrows : df.rows = []) :
    ((∀ c ∈ FILLS_required_cols, c ∈ df.cols) → validate_fills df = .ok ()) ∧
    ((∀ c ∈ PRICES_required_cols, c ∈ df.cols) → validate_prices df = .ok ()) ∧
    ((∀ c ∈ FEES_required_cols, c ∈ df.cols) → validate_fees df = .ok ()) ∧
    (∀ fs p tz, findFile fs p = some df → strLower (pathSuffix p) = ".csv" →
      ((∀ c ∈ FILLS_required_cols, c ∈ df.cols) →
        load_fills fs p tz = .ok ⟨FILLS_required_cols, []⟩) ∧
      ((∀ c ∈ PRICES_required_cols, c ∈ df.cols) →
        load_prices fs p tz = .ok ⟨PRICES_required_cols, []⟩) ∧
      ((∀ c ∈ FEES_required_cols, c ∈ df.cols.map hdrNorm) →
        load_fees fs p = .ok ⟨FEES_required_cols, []⟩)) := by
  refine ⟨validate_fills_empty df hrows, validate_prices_empty df hrows,
    validate_fees_empty df hrows, ?_⟩
  intro fs p tz hfile hsuf
  have hread : read_any fs p = .ok df := by
    simp [read_any, hfile, hsuf]
  refine ⟨?_, ?_, ?_⟩
  · intro hcols
    have hnorm : normalize_fills df = .ok ⟨df.cols, []⟩ := by
      unfold normalize_fills normalize_fills_run
      rw [require_columns_ok df _ _ hcols]
      simp [DataFrame.mapCol, hrows, Except.map]
    have hidx : colIdx FILLS_required_cols "timestamp" = some 1 := by decide
    have hmapt : ∀ z, DataFrame.mapCol ⟨df.cols, []⟩ "timestamp" (tzConvertCell z) =
        (⟨df.cols, []⟩ : DataFrame) := fun z => by simp [DataFrame.mapCol]
    unfold load_fills
    cases tz with
    | none =>
      simp only [hread, hnorm]
      rw [validate_fills_empty ⟨df.cols, []⟩ rfl hcols]
      simp [DataFrame.project, DataFrame.sortValuesKey, hidx, sortRows]
    | some z =>
      simp only [hread, hnorm, hmapt]
      rw [validate_fills_empty ⟨df.cols, []⟩ rfl hcols]
      simp [DataFrame.project, DataFrame.sortValuesKey, hidx, sortRows]
  · intro hcols
    have hnorm : normalize_prices df = .ok ⟨df.cols, []⟩ := by
      unfold normalize_prices normalize_prices_run
      rw [require_columns_ok df _ _ hcols]
      simp [DataFrame.mapCol, hrows, Except.map]
    have hval : validate_prices (⟨df.cols, []⟩ : DataFrame) = .ok () :=
      validate_prices_empty _ rfl hcols
    have hmapt : ∀ z, DataFrame.mapCol ⟨df.cols, []⟩ "timestamp" (tzConvertCell z) =
        (⟨df.cols, []⟩ : DataFrame) := fun z => by simp [DataFrame.mapCol]
    have hidx0 : colIdx PRICES_required_cols "date" = some 0 := by decide
    have hidx1 : colIdx PRICES_required_cols "symbol" = some 1 := by decide
    unfold load_prices
    by_cases ht : "timestamp" ∈ df.cols
    · cases tz <;>
        simp [hread, hnorm, ht, hmapt, hval, DataFrame.project, DataFrame.sortValues2,
          hidx0, hidx1, sortRows]
    · cases tz <;>
        simp [hread, hnorm, ht, hval, DataFrame.project, DataFrame.sortValues2,
          hidx0, hidx1, sortRows]
  · intro hcols
    have hnil : FEES_required_cols.filter
        (fun c => decide (c ∉ df.cols.map hdrNorm)) = [] := by
      rw [List.filter_eq_nil_iff]
      intro a ha
      simp [hcols a ha]
    have hval : validate_fees (⟨df.cols.map hdrNorm, []⟩ : DataFrame) = .ok () :=
      validate_fees_empty _ rfl hcols
    unfold load_fees
    simp only [hread, hrows]
    simp [hnil, DataFrame.mapCol, hval, DataFrame.project]
    intro x hx
    exact List.mem_map.mp (hcols x hx)

theorem empty_batches_witness :
    validate_fills ⟨["trade_id", "timestamp", "symbol", "side", "qty", "price",
      "date", "close", "fees", "rebates"], []⟩ = .ok () ∧
    load_fills [("e.csv", ⟨["trade_id", "timestamp", "symbol", "side", "qty", "price",
        "date", "close", "fees", "rebates"], []⟩)] "e.csv" none =
      .ok ⟨FILLS_required_cols, []⟩ ∧
    load_prices [("e.csv", ⟨["trade_id", "timestamp", "symbol", "side", "qty", "price",
        "date", "close", "fees", "rebates"], []⟩)] "e.csv" none =
      .ok ⟨PRICES_required_cols, []⟩ ∧
    load_fees [("e.csv", ⟨["trade_id", "timestamp", "symbol", "side", "qty", "price",
        "date", "close", "fees", "rebates"], []⟩)] "e.csv" =
      .ok ⟨FEES_required_cols, []⟩ := by
  have h := empty_batches ⟨["trade_id", "timestamp", "symbol", "side", "qty", "price",
    "date", "close", "fees", "rebates"], []⟩ rfl
  have hl := h.2.2.2 [("e.csv", ⟨["trade_id", "timestamp", "symbol", "side", "qty", "price",
    "date", "close", "fees", "rebates"], []⟩)] "e.csv" none rfl (by decide)
  exact ⟨h.1 (by decide), hl.1 (by decide), hl.2.1 (by decide), hl.2.2 (by decide)⟩

/-- C8: the normalize functions write only into the working copy `out`: on
success the local variable `df` still holds the caller's table unchanged
(same columns and cell values), and the returned table is the transformed
copy. -/
theorem normalize_no_mutation (df : DataFrame) :
    (∀ e, normalize_fills_run df = .ok e → e.df = df ∧ normalize_fills df = .ok e.out) ∧
    (∀ e, normalize_prices_run df = .ok e → e.df = df ∧ normalize_prices df = .ok e.out) := by
  constructor
  · intro e he
    unfold normalize_fills_run at he
    cases hrc : require_columns df FILLS_required_cols "fills" with
    | error err =>
      rw [hrc] at he
      simp at he
    | ok u =>
      cases u
      rw [hrc] at he
      simp only [Except.ok.injEq] at he
      refine ⟨by rw [← he], ?_⟩
      unfold normalize_fills normalize_fills_run
      rw [hrc, ← he]
      rfl
  · intro e he
    unfold normalize_prices_run at he
    cases hrc : require_columns df PRICES_required_cols "prices" with
    | error err =>
      rw [hrc] at he
      simp at he
    | ok u =>
      cases u
      rw [hrc] at he
      simp only [Except.ok.injEq] at he
      refine ⟨by rw [← he], ?_⟩
      unfold normalize_prices normalize_prices_run
      rw [hrc, ← he]
      rfl

theorem normalize_no_mutation_witness :
    (NormEnv.df ⟨⟨FILLS_required_cols,
        [[Cell.str " t1 ", Cell.str "2024-01-01", Cell.str " aapl", Cell.str "b",
          Cell.num 5, Cell.str "xx"]]⟩,
      ⟨FILLS_required_cols,
        [[Cell.str "t1", Cell.dt 20240101000000, Cell.str "AAPL", Cell.str "B",
          Cell.num 5, Cell.na]]⟩⟩ =
      ⟨FILLS_required_cols,
        [[Cell.str " t1 ", Cell.str "2024-01-01", Cell.str " aapl", Cell.str "b",
          Cell.num 5, Cell.str "xx"]]⟩) ∧
    normalize_fills ⟨FILLS_required_cols,
        [[Cell.str " t1 ", Cell.str "2024-01-01", Cell.str " aapl", Cell.str "b",
          Cell.num 5, Cell.str "xx"]]⟩ =
      .ok (NormEnv.out ⟨⟨FILLS_required_cols,
        [[Cell.str " t1 ", Cell.str "2024-01-01", Cell.str " aapl", Cell.str "b",
          Cell.num 5, Cell.str "xx"]]⟩,
      ⟨FILLS_required_cols,
        [[Cell.str "t1", Cell.dt 20240101000000, Cell.str "AAPL", Cell.str "B",
          Cell.num 5, Cell.na]]⟩⟩) :=
  (normalize_no_mutation ⟨FILLS_required_cols,
      [[Cell.str " t1 ", Cell.str "2024-01-01", Cell.str " aapl", Cell.str "b",
        Cell.num 5, Cell.str "xx"]]⟩).1
    ⟨⟨FILLS_required_cols,
        [[Cell.str " t1 ", Cell.str "2024-01-01", Cell.str " aapl", Cell.str "b",
          Cell.num 5, Cell.str "xx"]]⟩,
      ⟨FILLS_required_cols,
        [[Cell.str "t1", Cell.dt 20240101000000, Cell.str "AAPL", Cell.str "B",
          Cell.num 5, Cell.na]]⟩⟩
    (by decide)

/-- C6: on any rectangular table with the required columns, the normalize
functions return a table (never an error), and every numeric or temporal
cell is replaced by its coercion, which maps each unparsable cell to the
missing marker instead of aborting. -/
theorem normalize_never_raises (df : DataFrame) (hrect : df.Rect) :
    ((∀ c ∈ FILLS_required_cols, c ∈ df.cols) →
      ∃ out, normalize_fills df = .ok out ∧
        out.col "qty" = (df.col "qty").map toNumericCell ∧
        out.col "price" = (df.col "price").map toNumericCell ∧
        out.col "timestamp" = (df.col "timestamp").map toDatetimeCell) ∧
    ((∀ c ∈ PRICES_required_cols, c ∈ df.cols) →
      ∃ out, normalize_prices df = .ok out ∧
        out.col "close" = (df.col "close").map toNumericCell ∧
        out.col "date" = (df.col "date").map toDateCell) ∧
    (∀ s, parseDecimal (strTrim s) = none → toNumericCell (Cell.str s) = Cell.na) ∧
    (∀ s, parseTimestampKey (strTrim s) = none → toDatetimeCell (Cell.str s) = Cell.na) ∧
    toNumericCell Cell.na = Cell.na ∧ toDatetimeCell Cell.na = Cell.na ∧
    toDateCell Cell.na = Cell.na := by
  refine ⟨?_, ?_, ?_, ?_, rfl, rfl, rfl⟩
  · intro hcols
    have hq : "qty" ∈ df.cols := hcols "qty" (by decide)
    have hp : "price" ∈ df.cols := hcols "price" (by decide)
    have ht : "timestamp" ∈ df.cols := hcols "timestamp" (by decide)
    have hr1 := rect_mapCol df "trade_id" stripCell hrect
    have hr2 := rect_mapCol _ "symbol" stripUpperCell hr1
    have hr3 := rect_mapCol _ "side" stripUpperCell hr2
    have hr4 := rect_mapCol _ "qty" toNumericCell hr3
    have hr5 := rect_mapCol _ "price" toNumericCell hr4
    refine ⟨(((((df.mapCol "trade_id" stripCell).mapCol "symbol" stripUpperCell).mapCol
      "side" stripUpperCell).mapCol "qty" toNumericCell).mapCol "price"
      toNumericCell).mapCol "timestamp" toDatetimeCell, ?_, ?_, ?_, ?_⟩
    · unfold normalize_fills normalize_fills_run
      rw [require_columns_ok df _ _ hcols]
      rfl
    · rw [col_mapCol_ne _ "qty" "timestamp" _ (by decide),
        col_mapCol_ne _ "qty" "price" _ (by decide),
        col_mapCol_same _ "qty" _ hr3 hq,
        col_mapCol_ne _ "qty" "side" _ (by decide),
        col_mapCol_ne _ "qty" "symbol" _ (by decide),
        col_mapCol_ne _ "qty" "trade_id" _ (by decide)]
    · rw [col_mapCol_ne _ "price" "timestamp" _ (by decide),
        col_mapCol_same _ "price" _ hr4 hp,
        col_mapCol_ne _ "price" "qty" _ (by decide),
        col_mapCol_ne _ "price" "side" _ (by decide),
        col_mapCol_ne _ "price" "symbol" _ (by decide),
        col_mapCol_ne _ "price" "trade_id" _ (by decide)]
    · rw [col_mapCol_same _ "timestamp" _ hr5 ht,
        col_mapCol_ne _ "timestamp" "price" _ (by decide),
        col_mapCol_ne _ "timestamp" "qty" _ (by decide),
        col_mapCol_ne _ "timestamp" "side" _ (by decide),
        col_mapCol_ne _ "timestamp" "symbol" _ (by decide),
        col_mapCol_ne _ "timestamp" "trade_id" _ (by decide)]
  · intro hcols
    have hd : "date" ∈ df.cols := hcols "date" (by decide)
    have hc : "close" ∈ df.cols := hcols "close" (by decide)
    have hr1 := rect_mapCol df "symbol" stripUpperCell hrect
    have hr2 := rect_mapCol _ "date" toDateCell hr1
    refine ⟨(((df.mapCol "symbol" stripUpperCell).mapCol "date" toDateCell).mapCol
      "close" toNumericCell).mapCol "timestamp" toDatetimeCell, ?_, ?_, ?_⟩
    · unfold normalize_prices normalize_prices_run
      rw [require_columns_ok df _ _ hcols]
      rfl
    · rw [col_mapCol_ne _ "close" "timestamp" _ (by decide),
        col_mapCol_same _ "close" _ hr2 hc,
        col_mapCol_ne _ "close" "date" _ (by decide),
        col_mapCol_ne _ "close" "symbol" _ (by decide)]
    · rw [col_mapCol_ne _ "date" "timestamp" _ (by decide),
        col_mapCol_ne _ "date" "close" _ (by decide),
        col_mapCol_same _ "date" _ hr1 hd,
        col_mapCol_ne _ "date" "symbol" _ (by decide)]
  · intro s h
    simp [toNumericCell, h]
  · intro s h
    simp [toDatetimeCell, h]

theorem normalize_never_raises_witness :
    ∃ out, normalize_fills ⟨FILLS_required_cols,
        [[Cell.str " t1 ", Cell.str "2024-01-01", Cell.str " aapl", Cell.str "b",
          Cell.num 5, Cell.str "xx"]]⟩ = .ok out ∧
      out.col "qty" = (DataFrame.col ⟨FILLS_required_cols,
        [[Cell.str " t1 ", Cell.str "2024-01-01", Cell.str " aapl", Cell.str "b",
          Cell.num 5, Cell.str "xx"]]⟩ "qty").map toNumericCell ∧
      out.col "price" = (DataFrame.col ⟨FILLS_required_cols,
        [[Cell.str " t1 ", Cell.str "2024-01-01", Cell.str " aapl", Cell.str "b",
          Cell.num 5, Cell.str "xx"]]⟩ "price").map toNumericCell ∧
      out.col "timestamp" = (DataFrame.col ⟨FILLS_required_cols,
        [[Cell.str " t1 ", Cell.str "2024-01-01", Cell.str " aapl", Cell.str "b",
          Cell.num 5, Cell.str "xx"]]⟩ "timestamp").map toDatetimeCell :=
  (normalize_never_raises ⟨FILLS_required_cols,
      [[Cell.str " t1 ", Cell.str "2024-01-01", Cell.str " aapl", Cell.str "b",
        Cell.num 5, Cell.str "xx"]]⟩
    (by unfold DataFrame.Rect; decide)).1 (by decide)

/-- C9: load_fees trims and lowercases every header before its
required-column check, so its missing-column set is computed from the
normalized names (and when that set is empty the load proceeds to
validation); load_fills and load_prices run no header normalization — their
missing-column error is computed from the raw header names. -/
theorem fees_header_normalization (fs : List (String × DataFrame)) (p : String)
    (df : DataFrame) (tz : Option String)
    (hfile : findFile fs p = some df) (hsuf : strLower (pathSuffix p) = ".csv") :
    (FEES_required_cols.filter (fun c => decide (c ∉ df.cols.map hdrNorm)) ≠ [] →
      load_fees fs p = .error (.dataValidation ("fees: missing required columns: " ++
        fmtStrList (FEES_required_cols.filter (fun c => decide (c ∉ df.cols.map hdrNorm)))))) ∧
    (FEES_required_cols.filter (fun c => decide (c ∉ df.cols.map hdrNorm)) = [] →
      (∃ out, load_fees fs p = .ok out) ∨
      (∃ e, validate_fees ((((⟨df.cols.map hdrNorm, df.rows⟩ : DataFrame).mapCol "trade_id"
          stripCell).mapCol "fees" toNumericCell).mapCol "rebates" toNumericCell) =
            .error e ∧
        load_fees fs p = .error e)) ∧
    (FILLS_required_cols.filter (fun c => decide (c ∉ df.cols)) ≠ [] →
      load_fills fs p tz = .error (.dataValidation ("fills: missing required columns: " ++
        fmtStrList (FILLS_required_cols.filter (fun c => decide (c ∉ df.cols)))))) ∧
    (PRICES_required_cols.filter (fun c => decide (c ∉ df.cols)) ≠ [] →
      load_prices fs p tz = .error (.dataValidation ("prices: missing required columns: " ++
        fmtStrList (PRICES_required_cols.filter (fun c => decide (c ∉ df.cols)))))) := by
  have hread : read_any fs p = .ok df := by
    simp [read_any, hfile, hsuf]
  refine ⟨?_, ?_, ?_, ?_⟩
  · intro hm
    unfold load_fees
    simp only [hread]
    split
    · rfl
    · next h => exact absurd hm h
  · intro hm0
    cases hv : validate_fees ((((⟨df.cols.map hdrNorm, df.rows⟩ : DataFrame).mapCol
        "trade_id" stripCell).mapCol "fees" toNumericCell).mapCol "rebates"
        toNumericCell) with
    | ok u =>
      cases u
      left
      have hl : load_fees fs p = .ok (((((⟨df.cols.map hdrNorm, df.rows⟩ :
          DataFrame).mapCol "trade_id" stripCell).mapCol "fees" toNumericCell).mapCol
          "rebates" toNumericCell).project FEES_required_cols) := by
        unfold load_fees
        simp only [hread]
        rw [if_neg (fun h => h hm0)]
        simp only [hv]
      exact ⟨_, hl⟩
    | error e =>
      right
      have hl : load_fees fs p = .error e := by
        unfold load_fees
        simp only [hread]
        rw [if_neg (fun h => h hm0)]
        simp only [hv]
      exact ⟨e, rfl, hl⟩
  · intro hm
    have hrc := require_columns_err df FILLS_required_cols "fills" hm
    have hnorm : normalize_fills df = .error (.dataValidation
        ("fills" ++ ": missing required columns: " ++
          fmtStrList (FILLS_required_cols.filter (fun c => decide (c ∉ df.cols))))) := by
      unfold normalize_fills normalize_fills_run
      rw [hrc]
      rfl
    unfold load_fills
    simp only [hread, hnorm]
    rfl
  · intro hm
    have hrc := require_columns_err df PRICES_required_cols "prices" hm
    have hnorm : normalize_prices df = .error (.dataValidation
        ("prices" ++ ": missing required columns: " ++
          fmtStrList (PRICES_required_cols.filter (fun c => decide (c ∉ df.cols))))) := by
      unfold normalize_prices normalize_prices_run
      rw [hrc]
      rfl
    unfold load_prices
    simp only [hread, hnorm]
    rfl

theorem fees_header_normalization_witness :
    load_fees [("f.csv", ⟨[" Trade_ID ", "FEES", "rebates"],
        [[Cell.str "T1", Cell.num (-1), Cell.num 0]]⟩)] "f.csv" =
      .ok ⟨["trade_id", "fees", "rebates"], [[Cell.str "T1", Cell.num (-1), Cell.num 0]]⟩ ∧
    load_fills [("f.csv", ⟨[" Trade_ID ", "FEES", "rebates"],
        [[Cell.str "T1", Cell.num (-1), Cell.num 0]]⟩)] "f.csv" none =
      .error (.dataValidation ("fills: missing required columns: " ++
        fmtStrList (FILLS_required_cols.filter
          (fun c => decide (c ∉ [" Trade_ID ", "FEES", "rebates"]))))) ∧
    load_prices [("f.csv", ⟨[" Trade_ID ", "FEES", "rebates"],
        [[Cell.str "T1", Cell.num (-1), Cell.num 0]]⟩)] "f.csv" none =
      .error (.dataValidation ("prices: missing required columns: " ++
        fmtStrList (PRICES_required_cols.filter
          (fun c => decide (c ∉ [" Trade_ID ", "FEES", "rebates"]))))) := by
  have h := fees_header_normalization
    [("f.csv", ⟨[" Trade_ID ", "FEES", "rebates"],
      [[Cell.str "T1", Cell.num (-1), Cell.num 0]]⟩)] "f.csv"
    ⟨[" Trade_ID ", "FEES", "rebates"], [[Cell.str "T1", Cell.num (-1), Cell.num 0]]⟩
    none rfl (by decide)
  exact ⟨by decide, h.2.2.1 (by decide), h.2.2.2 (by decide)⟩

theorem charListLe_total : ∀ a b, charListLe a b = true ∨ charListLe b a = true := by
  intro a
  induction a with
  | nil => intro b; left; rfl
  | cons x xs ih =>
    intro b
    cases b with
    | nil => right; rfl
    | cons y ys =>
      by_cases h1 : x.toNat < y.toNat
      · left; simp [charListLe, h1]
      · by_cases h2 : y.toNat < x.toNat
        · right; simp [charListLe, h2]
        · rcases ih ys with h | h
          · left; simp [charListLe, h1, h2, h]
          · right; simp [charListLe, h1, h2, h]

theorem charListLe_trans : ∀ a b c, charListLe a b = true → charListLe b c = true →
    charListLe a c = true := by
  intro a
  induction a with
  | nil => intro b c h1 h2; rfl
  | cons x xs ih =>
    intro b c h1 h2
    cases b with
    | nil => simp [charListLe] at h1
    | cons y ys =>
      cases c with
      | nil => simp [charListLe] at h2
      | cons z zs =>
        by_cases hxy : x.toNat < y.toNat
        · by_cases hyz : y.toNat < z.toNat
          · have hxz : x.toNat < z.toNat := Nat.lt_trans hxy hyz
            simp [charListLe, hxz]
          · by_cases hzy : z.toNat < y.toNat
            · simp [charListLe, hyz, hzy] at h2
            · have hyz' : y.toNat = z.toNat :=
                Nat.le_antisymm (Nat.le_of_not_lt hzy) (Nat.le_of_not_lt hyz)
            
              have hxz : x.toNat < z.toNat := hyz' ▸ hxy
              simp [charListLe, hxz]
        · by_cases hyx : y.toNat < x.toNat
          · simp [charListLe, hxy, hyx] at h1
          · have hxy' : x.toNat = y.toNat :=
              Nat.le_antisymm (Nat.le_of_not_lt hyx) (Nat.le_of_not_lt hxy)
            by_cases hyz : y.toNat < z.toNat
            · have hxz : x.toNat < z.toNat := hxy' ▸ hyz
              simp [charListLe, hxz]
            · by_cases hzy : z.toNat < y.toNat
              · simp [charListLe, hyz, hzy] at h2
              · have hyz' : y.toNat = z.toNat :=
                  Nat.le_antisymm (Nat.le_of_not_lt hzy) (Nat.le_of_not_lt hyz)
                have h1' : charListLe xs ys = true := by
                  simpa [charListLe, hxy, hyx] using h1
                have h2' : charListLe ys zs = true := by
                  simpa [charListLe, hyz, hzy] using h2
                have hxz1 : ¬ x.toNat < z.toNat := by omega
                have hxz2 : ¬ z.toNat < x.toNat := by omega
                simp [charListLe, hxz1, hxz2, ih ys zs h1' h2']

theorem pricesRowLe_iff (i j : ℕ) (r1 r2 : List Cell) :
    pricesRowLe i j r1 r2 = true ↔
      ((r1.getD i Cell.na).sortKey < (r2.getD i Cell.na).sortKey ∨
       ((r1.getD i Cell.na).sortKey = (r2.getD i Cell.na).sortKey ∧
         symLe (r1.getD j Cell.na) (r2.getD j Cell.na) = true)) := by
  by_cases h1 : (r1.getD i Cell.na).sortKey < (r2.getD i Cell.na).sortKey
  · simp only [pricesRowLe]
    rw [if_pos h1]
    exact ⟨fun _ => Or.inl h1, fun _ => rfl⟩
  · by_cases h2 : (r2.getD i Cell.na).sortKey < (r1.getD i Cell.na).sortKey
    · simp only [pricesRowLe]
      rw [if_neg h1, if_pos h2]
      simp only [Bool.false_eq_true, false_iff]
      rintro (h | ⟨he, -⟩)
      · exact h1 h
      · omega
    · have he : (r1.getD i Cell.na).sortKey = (r2.getD i Cell.na).sortKey :=
        le_antisymm (le_of_not_lt h2) (le_of_not_lt h1)
      simp only [pricesRowLe]
      rw [if_neg h1, if_neg h2]
      constructor
      · intro hs
        exact Or.inr ⟨he, hs⟩
      · rintro (h | ⟨-, hs⟩)
        · exact absurd h h1
        · exact hs

theorem pricesRowLe_trans (i j : ℕ) : ∀ a b c, pricesRowLe i j a b = true →
    pricesRowLe i j b c = true → pricesRowLe i j a c = true := by
  intro a b c h1 h2
  rw [pricesRowLe_iff] at h1 h2 ⊢
  rcases h1 with h1 | ⟨e1, s1⟩
  · rcases h2 with h2 | ⟨e2, s2⟩
    · exact Or.inl (lt_trans h1 h2)
    · exact Or.inl (e2 ▸ h1)
  · rcases h2 with h2 | ⟨e2, s2⟩
    · refine Or.inl ?_
      rw [e1]
      exact h2
    · exact Or.inr ⟨e1.trans e2, charListLe_trans _ _ _ s1 s2⟩

theorem pricesRowLe_total (i j : ℕ) : ∀ a b, pricesRowLe i j a b = true ∨
    pricesRowLe i j b a = true := by
  intro a b
  rw [pricesRowLe_iff, pricesRowLe_iff]
  rcases lt_trichotomy ((a.getD i Cell.na).sortKey) ((b.getD i Cell.na).sortKey)
    with h | h | h
  · exact Or.inl (Or.inl h)
  · rcases charListLe_total ((a.getD j Cell.na).astypeStr.data)
      ((b.getD j Cell.na).astypeStr.data) with hs | hs
    · exact Or.inl (Or.inr ⟨h, hs⟩)
    · exact Or.inr (Or.inr ⟨h.symm, hs⟩)
  · exact Or.inr (Or.inl h)

theorem fills_proj_sorted (dfx : DataFrame) :
    ((dfx.project FILLS_required_cols).sortValuesKey "timestamp").rows.Pairwise
      (fun r1 r2 => (r1.getD 1 Cell.na).sortKey ≤ (r2.getD 1 Cell.na).sortKey) := by
  have htrans : ∀ a b c, rowKeyLe 1 a b = true → rowKeyLe 1 b c = true →
      rowKeyLe 1 a c = true := by
    intro a b c h1 h2
    simp only [rowKeyLe, decide_eq_true_iff] at h1 h2 ⊢
    exact le_trans h1 h2
  have htotal : ∀ a b, rowKeyLe 1 a b = true ∨ rowKeyLe 1 b a = true := by
    intro a b
    simp only [rowKeyLe, decide_eq_true_iff]
    exact le_total _ _
  have hidx : colIdx (dfx.project FILLS_required_cols).cols "timestamp" = some 1 := by
    show colIdx FILLS_required_cols "timestamp" = some 1
    decide
  unfold DataFrame.sortValuesKey
  rw [hidx]
  exact (pairwise_sortRows (rowKeyLe 1) htrans htotal _).imp
    (fun h => of_decide_eq_true h)

theorem prices_proj_sorted (dfx : DataFrame) :
    ((dfx.project PRICES_required_cols).sortValues2 "date" "symbol").rows.Pairwise
      (fun r1 r2 =>
        (r1.getD 0 Cell.na).sortKey < (r2.getD 0 Cell.na).sortKey ∨
        ((r1.getD 0 Cell.na).sortKey = (r2.getD 0 Cell.na).sortKey ∧
          symLe (r1.getD 1 Cell.na) (r2.getD 1 Cell.na) = true)) := by
  have hidx0 : colIdx (dfx.project PRICES_required_cols).cols "date" = some 0 := by
    show colIdx PRICES_required_cols "date" = some 0
    decide
  have hidx1 : colIdx (dfx.project PRICES_required_cols).cols "symbol" = some 1 := by
    show colIdx PRICES_required_cols "symbol" = some 1
    decide
  unfold DataFrame.sortValues2
  rw [hidx0, hidx1]
  exact (pairwise_sortRows (pricesRowLe 0 1) (pricesRowLe_trans 0 1)
    (pricesRowLe_total 0 1) _).imp (fun h => (pricesRowLe_iff 0 1 _ _).mp h)

theorem load_fees_rows (fs : List (String × DataFrame)) (p : String)
    (df0 out : DataFrame) (hread : read_any fs p = .ok df0)
    (h : load_fees fs p = .ok out) :
    out.rows = df0.rows.map (feesRowFn df0.cols) := by
  unfold load_fees at h
  simp only [hread] at h
  split at h
  · simp at h
  · split at h
    · simp at h
    · rw [Except.ok.injEq] at h
      subst h
      simp only [DataFrame.project, DataFrame.mapCol, List.map_map]
      rfl

/-- C7: on the canonical output columns, fills rows come back non-decreasing
in the timestamp column (index 1 of the canonical fill columns), prices rows
non-decreasing lexicographically in (date, symbol) (indices 0 and 1 of the
canonical price columns), and load_fees returns the decoded file's rows in
pass-through order: row i of the output is the projected transform of row i
of the input, with no sorting applied. -/
theorem canonical_sort_order (fs : List (String × DataFrame)) (p : String)
    (tz : Option String) :
    (∀ out, load_fills fs p tz = .ok out →
      out.rows.Pairwise (fun r1 r2 =>
        (r1.getD 1 Cell.na).sortKey ≤ (r2.getD 1 Cell.na).sortKey)) ∧
    (∀ out, load_prices fs p tz = .ok out →
      out.rows.Pairwise (fun r1 r2 =>
        (r1.getD 0 Cell.na).sortKey < (r2.getD 0 Cell.na).sortKey ∨
        ((r1.getD 0 Cell.na).sortKey = (r2.getD 0 Cell.na).sortKey ∧
          symLe (r1.getD 1 Cell.na) (r2.getD 1 Cell.na) = true))) ∧
    (∀ df0 out, read_any fs p = .ok df0 → load_fees fs p = .ok out →
      out.rows = df0.rows.map (feesRowFn df0.cols)) := by
  refine ⟨?_, ?_, fun df0 out hread h => load_fees_rows fs p df0 out hread h⟩
  · intro out h
    unfold load_fills at h
    cases h1 : read_any fs p with
    | error e => simp [h1] at h
    | ok df0 =>
      simp only [h1] at h
      cases h2 : normalize_fills df0 with
      | error e => simp [h2] at h
      | ok df1 =>
        simp only [h2] at h
        cases tz with
        | none =>
          cases h3 : validate_fills df1 with
          | error e => simp [h3] at h
          | ok u =>
            cases u
            simp only [h3, Except.ok.injEq] at h
            subst h
            exact fills_proj_sorted df1
        | some z =>
          cases h3 : validate_fills (df1.mapCol "timestamp" (tzConvertCell z)) with
          | error e => simp [h3] at h
          | ok u =>
            cases u
            simp only [h3, Except.ok.injEq] at h
            subst h
            exact fills_proj_sorted _
  · intro out h
    unfold load_prices at h
    cases h1 : read_any fs p with
    | error e => simp [h1] at h
    | ok df0 =>
      simp only [h1] at h
      cases h2 : normalize_prices df0 with
      | error e => simp [h2] at h
      | ok df1 =>
        simp only [h2] at h
        by_cases ht : "timestamp" ∈ df1.cols
        · simp only [ht, if_true] at h
          cases tz with
          | none =>
            cases h3 : validate_prices df1 with
            | error e => simp [h3] at h
            | ok u =>
              cases u
              simp only [h3, Except.ok.injEq] at h
              subst h
              exact prices_proj_sorted df1
          | some z =>
            cases h3 : validate_prices (df1.mapCol "timestamp" (tzConvertCell z)) with
            | error e => simp [h3] at h
            | ok u =>
              cases u
              simp only [h3, Except.ok.injEq] at h
              subst h
              exact prices_proj_sorted _
        · simp only [ht, if_false] at h
          cases h3 : validate_prices df1 with
          | error e => simp [h3] at h
          | ok u =>
            cases u
            simp only [h3, Except.ok.injEq] at h
            subst h
            exact prices_proj_sorted df1

theorem canonical_sort_order_witness :
    List.Pairwise (fun r1 r2 : List Cell =>
        (r1.getD 1 Cell.na).sortKey ≤ (r2.getD 1 Cell.na).sortKey)
      [[Cell.str "T1", Cell.dt 20240101103000, Cell.str "MSFT", Cell.str "S",
        Cell.num 3, Cell.num 2],
       [Cell.str "T2", Cell.dt 20240102103000, Cell.str "AAPL", Cell.str "B",
        Cell.num 5, Cell.num 10]] ∧
    List.Pairwise (fun r1 r2 : List Cell =>
        (r1.getD 0 Cell.na).sortKey < (r2.getD 0 Cell.na).sortKey ∨
        ((r1.getD 0 Cell.na).sortKey = (r2.getD 0 Cell.na).sortKey ∧
          symLe (r1.getD 1 Cell.na) (r2.getD 1 Cell.na) = true))
      [[Cell.date 20240101, Cell.str "AAPL", Cell.num 7],
       [Cell.date 20240101, Cell.str "MSFT", Cell.num 4],
       [Cell.date 20240102, Cell.str "AAPL", Cell.num 5]] ∧
    ([[Cell.str "T2", Cell.num (-1), Cell.num 0],
      [Cell.str "T1", Cell.num (-2), Cell.num 1]] : List (List Cell)) =
      ([[Cell.str "T2", Cell.num (-1), Cell.num 0],
        [Cell.str "T1", Cell.num (-2), Cell.num 1]] : List (List Cell)).map
        (feesRowFn ["trade_id", "fees", "rebates"]) := by
  refine ⟨?_, ?_, ?_⟩
  · exact (canonical_sort_order
      [("f.csv", ⟨FILLS_required_cols,
        [[Cell.str "T2", Cell.str "2024-01-02 10:30:00", Cell.str "aapl", Cell.str "b",
          Cell.num 5, Cell.num 10],
         [Cell.str "T1", Cell.str "2024-01-01 10:30:00", Cell.str "msft", Cell.str "S",
          Cell.num 3, Cell.num 2]]⟩)] "f.csv" none).1
      ⟨FILLS_required_cols,
        [[Cell.str "T1", Cell.dt 20240101103000, Cell.str "MSFT", Cell.str "S",
          Cell.num 3, Cell.num 2],
         [Cell.str "T2", Cell.dt 20240102103000, Cell.str "AAPL", Cell.str "B",
          Cell.num 5, Cell.num 10]]⟩ (by decide)
  · exact (canonical_sort_order
      [("p.csv", ⟨["date", "symbol", "close"],
        [[Cell.str "2024-01-02", Cell.str "aapl", Cell.num 5],
         [Cell.str "2024-01-01", Cell.str "msft", Cell.num 4],
         [Cell.str "2024-01-01", Cell.str "aapl", Cell.num 7]]⟩)] "p.csv" none).2.1
      ⟨["date", "symbol", "close"],
        [[Cell.date 20240101, Cell.str "AAPL", Cell.num 7],
         [Cell.date 20240101, Cell.str "MSFT", Cell.num 4],
         [Cell.date 20240102, Cell.str "AAPL", Cell.num 5]]⟩ (by decide)
  · exact (canonical_sort_order
      [("fees.csv", ⟨["trade_id", "fees", "rebates"],
        [[Cell.str "T2", Cell.num (-1), Cell.num 0],
         [Cell.str "T1", Cell.num (-2), Cell.num 1]]⟩)] "fees.csv" none).2.2
      ⟨["trade_id", "fees", "rebates"],
        [[Cell.str "T2", Cell.num (-1), Cell.num 0],
         [Cell.str "T1", Cell.num (-2), Cell.num 1]]⟩
      ⟨["trade_id", "fees", "rebates"],
        [[Cell.str "T2", Cell.num (-1), Cell.num 0],
         [Cell.str "T1", Cell.num (-2), Cell.num 1]]⟩
      (by decide) (by decide)
